import Mathlib

/-!
Verification development for a repository containing two frontend utilities
(`src/utils/Transition.js`):

* a `Transition` / `CSSTransition` wrapper component that toggles class-name
  tokens on a DOM node across enter/leave transition phases, propagating
  visibility state from a parent instance to nested children via context;
* a service-worker registration helper (`register`, `registerValidSW`,
  `checkValidServiceWorker`, `unregister`).

The JavaScript is shallowly embedded: DOM/class-list mutation becomes explicit
state passing on a `NodeState`, asynchronous browser effects (fetch results,
worker registration, console output, reloads) become inputs and explicit
action traces.
-/

namespace Transition

/-- JS `String.prototype.split(' ')` on a list of characters: splits on the
single space character only (not on general whitespace), keeping empty
chunks between consecutive separators. -/
def splitOnSpace : List Char → List (List Char)
  | [] => [[]]
  | c :: rest =>
    if c = ' ' then [] :: splitOnSpace rest
    else
      match splitOnSpace rest with
      | [] => [[c]]
      | t :: ts => (c :: t) :: ts

/-- The class-token computation of `CSSTransition`
(`enter.split(' ').filter((s) => s.length)`): split the prop string on the
space character, drop empty tokens. -/
def splitClasses (s : String) : List String :=
  ((splitOnSpace s.data).map (fun l => String.mk l)).filter (fun t => t.length != 0)

/-- A whitespace character in the sense of the spec's phrase
"whitespace-delimited string tokens" (space, tab, newline, carriage return). -/
def isWsChar (c : Char) : Bool :=
  c = ' ' || c = '\t' || c = '\n' || c = '\r'

/-- Splitting on every whitespace character, same chunk structure as
`splitOnSpace`. Used only to state the spec's reading of the token split. -/
def splitOnWhitespace : List Char → List (List Char)
  | [] => [[]]
  | c :: rest =>
    if isWsChar c then [] :: splitOnWhitespace rest
    else
      match splitOnWhitespace rest with
      | [] => [[c]]
      | t :: ts => (c :: t) :: ts

/-- The spec's reading of the token computation: the prop string is split into
whitespace-delimited tokens and empty tokens are discarded. This definition
follows the spec's words and is compared against `splitClasses`, which is the
code's computation. -/
def splitClassesSpec (s : String) : List String :=
  ((splitOnWhitespace s.data).map (fun l => String.mk l)).filter (fun t => t.length != 0)

/-- DOM `classList.add` for one token: a `DOMTokenList` is duplicate-free, so
adding an already-present token is a no-op; otherwise the token is appended. -/
def addClass (cl : List String) (c : String) : List String :=
  if c ∈ cl then cl else cl ++ [c]

/-- `addClasses(node, classes)` from `CSSTransition`:
`classes.length && node.classList.add(...classes)`. -/
def addClasses (cl : List String) (cs : List String) : List String :=
  cs.foldl addClass cl

/-- `removeClasses(node, classes)` from `CSSTransition`:
`classes.length && node.classList.remove(...classes)`; `classList.remove`
drops every listed token. -/
def removeClasses (cl : List String) (cs : List String) : List String :=
  cl.filter (fun c => decide (c ∉ cs))

/-- The DOM node state the transition callbacks mutate: its class list and its
inline `style.display` value (`none` when no inline display is set). -/
structure NodeState where
  classList : List String
  display : Option String
deriving DecidableEq, Repr

/-- The six class-name props of `CSSTransition` (each defaults to `''` in the
source; a caller passing nothing passes the empty string). -/
structure CSSTransitionClassProps where
  enter : String
  enterStart : String
  enterEnd : String
  leave : String
  leaveStart : String
  leaveEnd : String

def enterClasses (p : CSSTransitionClassProps) : List String := splitClasses p.enter

def enterStartClasses (p : CSSTransitionClassProps) : List String := splitClasses p.enterStart

def enterEndClasses (p : CSSTransitionClassProps) : List String := splitClasses p.enterEnd

def leaveClasses (p : CSSTransitionClassProps) : List String := splitClasses p.leave

def leaveStartClasses (p : CSSTransitionClassProps) : List String := splitClasses p.leaveStart

def leaveEndClasses (p : CSSTransitionClassProps) : List String := splitClasses p.leaveEnd

/-- The inline style the rendered element starts with:
`style=\x7b\x7b display: !removeFromDom ? none-string : null \x7d\x7d`. -/
def initialDisplay (removeFromDom : Bool) : Option String :=
  if removeFromDom then none else some "none"

/-- The `onEnter` callback: clear the inline display (unless the node is
removed from the DOM on exit), then add the `enter` and `enterStart` tokens. -/
def onEnter (p : CSSTransitionClassProps) (removeFromDom : Bool) (n : NodeState) : NodeState :=
  let n1 : NodeState := if removeFromDom then n else { n with display := none }
  { n1 with classList := addClasses n1.classList (enterClasses p ++ enterStartClasses p) }

/-- The `onEntering` callback: remove the `enterStart` tokens, add the
`enterEnd` tokens. -/
def onEntering (p : CSSTransitionClassProps) (n : NodeState) : NodeState :=
  { n with classList := addClasses (removeClasses n.classList (enterStartClasses p)) (enterEndClasses p) }

/-- The `onEntered` callback: remove the `enterEnd` and `enter` tokens. -/
def onEntered (p : CSSTransitionClassProps) (n : NodeState) : NodeState :=
  { n with classList := removeClasses n.classList (enterEndClasses p ++ enterClasses p) }

/-- The `onExit` callback: add the `leave` and `leaveStart` tokens. -/
def onExit (p : CSSTransitionClassProps) (n : NodeState) : NodeState :=
  { n with classList := addClasses n.classList (leaveClasses p ++ leaveStartClasses p) }

/-- The `onExiting` callback: remove the `leaveStart` tokens, add the
`leaveEnd` tokens. -/
def onExiting (p : CSSTransitionClassProps) (n : NodeState) : NodeState :=
  { n with classList := addClasses (removeClasses n.classList (leaveStartClasses p)) (leaveEndClasses p) }

/-- The `onExited` callback: remove the `leaveEnd` and `leave` tokens, then
set the inline display back to `none` unless the node is removed from the DOM. -/
def onExited (p : CSSTransitionClassProps) (removeFromDom : Bool) (n : NodeState) : NodeState :=
  let n1 : NodeState := { n with classList := removeClasses n.classList (leaveEndClasses p ++ leaveClasses p) }
  if removeFromDom then n1 else { n1 with display := some "none" }

/-- The `useIsInitialRender` hook: a ref starts `true` and an effect with an
empty dependency list sets it to `false` after the first render commits, so
render number `k` (counting from 0) reads `true` exactly when `k = 0`. -/
def useIsInitialRender (renderIndex : Nat) : Bool :=
  renderIndex == 0

/-- The state a root `Transition` instance publishes through
`TransitionContext` for its descendants: `\x7b show, isInitialRender, appear \x7d`.
The `show` field is spelled `showProp` because `show` is a Lean keyword. -/
structure ParentState where
  showProp : Bool
  isInitialRender : Bool
  appear : Bool

/-- The two props `Transition` computes for the inner `CSSTransition`
(`appear=...` and `show=...`, the latter becoming `in` on the library
component). `show` is spelled `showProp` because `show` is a Lean keyword. -/
structure CSSTransitionInput where
  appear : Bool
  showProp : Bool
deriving DecidableEq, Repr

/-- The child branch of `Transition` (`show === undefined`): the inner
`CSSTransition` receives `appear=\x7bparent.appear || !parent.isInitialRender\x7d`
and `show=\x7bparent.show\x7d`; the child's own `appear` prop is destructured away
and never used. -/
def childRender (parent : ParentState) : CSSTransitionInput :=
  { appear := parent.appear || !parent.isInitialRender, showProp := parent.showProp }

/-- `Transition(\x7b show, appear, ...rest \x7d)`: a child instance (no `show`
prop) inherits from the context `parent`; a root instance passes its own
`appear` and `show` through. -/
def transitionRender (showArg : Option Bool) (appear : Bool) (parent : ParentState) :
    CSSTransitionInput :=
  match showArg with
  | none => childRender parent
  | some s => { appear := appear, showProp := s }

/-- Phases of the transition state machine of spec section 4.1. -/
inductive Phase
  | hidden
  | entering
  | entered
  | shown
  | exiting
  | exited
deriving DecidableEq, Repr

/-- Modelled from the spec: the phase in which the external transition-group
component (a dependency, not part of this repository) first renders for given
`show`/`appear` inputs. Per the spec's state machine, `show=false` rests in
the hidden phase; `show=true` starts the enter sequence when `appear` is set
and renders shown immediately otherwise. -/
def initialPhase (inp : CSSTransitionInput) : Phase :=
  if inp.showProp then
    (if inp.appear then Phase.entering else Phase.shown)
  else Phase.hidden

end Transition

namespace ServiceWorker

/-- Whether a pattern is a prefix of a character list. -/
def prefixMatch : List Char → List Char → Bool
  | [], _ => true
  | _ :: _, [] => false
  | a :: as, b :: bs => a == b && prefixMatch as bs

/-- Whether a pattern occurs as a contiguous substring of a character list. -/
def containsChars (pat : List Char) : List Char → Bool
  | [] => prefixMatch pat []
  | s :: rest => prefixMatch pat (s :: rest) || containsChars pat rest

/-- JS `haystack.indexOf(needle) !== -1`: the needle occurs in the haystack. -/
def containsSubstr (haystack pat : String) : Bool :=
  containsChars pat.data haystack.data

/-- One octet chunk of the loopback regex
`25[0-5]|2[0-4][0-9]|[01]?[0-9][0-9]?`, matched against a full chunk of the
hostname between dots. -/
def octetMatch : List Char → Bool
  | [a] => a.isDigit
  | [a, b] => a.isDigit && b.isDigit
  | [a, b, c] =>
      (decide (a = '2') && decide (b = '5') && decide ('0' ≤ c) && decide (c ≤ '5')) ||
      (decide (a = '2') && decide ('0' ≤ b) && decide (b ≤ '4') && c.isDigit) ||
      ((decide (a = '0') || decide (a = '1')) && b.isDigit && c.isDigit)
  | _ => false

/-- Split a character list on the dot character, keeping empty chunks. -/
def splitOnDot : List Char → List (List Char)
  | [] => [[]]
  | c :: rest =>
    if c = '.' then [] :: splitOnDot rest
    else
      match splitOnDot rest with
      | [] => [[c]]
      | t :: ts => (c :: t) :: ts

/-- The anchored regex `^127(?:\.OCTET)\x7b3\x7d$`: the hostname is `127`
followed by exactly three dot-separated octet chunks. -/
def is127Loopback (hostname : String) : Bool :=
  match splitOnDot hostname.data with
  | [a, b, c, d] =>
      decide (a = ['1', '2', '7']) && octetMatch b && octetMatch c && octetMatch d
  | _ => false

/-- `isLocalhost` from the source: hostname is `localhost`, the IPv6 loopback
`[::1]`, or an IPv4 address matching the 127.0.0.0/8 regex. -/
def isLocalhost (hostname : String) : Bool :=
  hostname == "localhost" || hostname == "[::1]" || is127Loopback hostname

/-- Observable browser effects of the registration helper: calls to
`navigator.serviceWorker.register`, the verification `fetch`, console output,
`registration.unregister()`, a forced `window.location.reload()`, and the two
caller-supplied callbacks. -/
inductive SWAction
  | navRegister (swUrl : String)
  | fetchCheck (swUrl : String)
  | consoleLog (msg : String)
  | consoleError (msg : String)
  | unregisterCall
  | reloadPage
  | callOnUpdate
  | callOnSuccess
deriving DecidableEq, Repr

/-- The parts of a fetch `Response` that `checkValidServiceWorker` inspects:
`response.status` and the content-type response header (`none` when the
header is absent, i.e. JS `null`). -/
structure FetchResponse where
  status : Nat
  contentType : Option String
deriving DecidableEq, Repr

/-- Result of the `fetch(swUrl, ...)` promise: `Except.error ()` models a
rejected fetch (network failure), `Except.ok` a response. -/
abbrev FetchResult := Except Unit FetchResponse

/-- The console message on the rejected-fetch path of
`checkValidServiceWorker`. -/
def offlineMsg : String :=
  "No internet connection found. App is running in offline mode."

/-- `checkValidServiceWorker(swUrl, config)` as the trace of its observable
actions, given the fetch outcome: fetch the worker script; on a response with
status 404, or with a non-null content-type that lacks `javascript`, unregister
the existing worker and then reload; otherwise proceed to `registerValidSW`,
whose first action is `navigator.serviceWorker.register(swUrl)`; on a rejected
fetch, log the offline message and stop. -/
def checkValidServiceWorker (swUrl : String) (fr : FetchResult) : List SWAction :=
  SWAction.fetchCheck swUrl ::
    match fr with
    | Except.error _ => [SWAction.consoleLog offlineMsg]
    | Except.ok resp =>
      if resp.status = 404 ||
          (match resp.contentType with
           | some ct => !(containsSubstr ct ("javascript"))
           | none => false) then
        [SWAction.unregisterCall, SWAction.reloadPage]
      else
        [SWAction.navRegister swUrl]

/-- The environment `register(config)` consults: `process.env.NODE_ENV`,
`serviceWorker in navigator`, the origins of `process.env.PUBLIC_URL` and of
the current page, the page hostname, and `process.env.PUBLIC_URL` itself. -/
structure RegisterEnv where
  nodeEnv : String
  hasServiceWorker : Bool
  publicUrlOrigin : String
  pageOrigin : String
  hostname : String
  publicUrl : String

/-- The worker script URL built inside the load listener:
`PUBLIC_URL` followed by `/service-worker.js`. -/
def swUrlOf (env : RegisterEnv) : String :=
  env.publicUrl ++ ("/service-worker.js")

/-- Control-flow outcome of `register(config)`:
`skipped` — the production/support guard failed, so nothing runs and no load
listener is installed; `abortCrossOrigin` — the guard passed but the public
asset origin differs from the page origin, so `register` returns before
installing the load listener; `loadLocalhostCheck` — the load listener runs
`checkValidServiceWorker(swUrl, config)`; `loadRegister` — the load listener
runs `registerValidSW(swUrl, config)`. -/
inductive RegisterOutcome
  | skipped
  | abortCrossOrigin
  | loadLocalhostCheck (swUrl : String)
  | loadRegister (swUrl : String)
deriving DecidableEq, Repr

/-- The synchronous dispatch of `register(config)`. -/
def register (env : RegisterEnv) : RegisterOutcome :=
  if env.nodeEnv = "production" ∧ env.hasServiceWorker = true then
    if env.publicUrlOrigin ≠ env.pageOrigin then
      RegisterOutcome.abortCrossOrigin
    else
      if isLocalhost env.hostname then
        RegisterOutcome.loadLocalhostCheck (swUrlOf env)
      else
        RegisterOutcome.loadRegister (swUrlOf env)
  else
    RegisterOutcome.skipped

/-- The action trace of one `register` call, assuming the window load event
fires and taking the verification fetch outcome as input. On the skipped and
cross-origin outcomes nothing is fetched, registered, or listened for. -/
def registerTrace (env : RegisterEnv) (fr : FetchResult) : List SWAction :=
  match register env with
  | RegisterOutcome.skipped => []
  | RegisterOutcome.abortCrossOrigin => []
  | RegisterOutcome.loadLocalhostCheck u => checkValidServiceWorker u fr
  | RegisterOutcome.loadRegister u => [SWAction.navRegister u]

/-- Whether an action is a call of `navigator.serviceWorker.register`. -/
def isNavRegister : SWAction → Bool
  | SWAction.navRegister _ => true
  | _ => false

/-- Whether an action is the verification fetch. -/
def isFetchCheck : SWAction → Bool
  | SWAction.fetchCheck _ => true
  | _ => false

/-- Whether the underlying browser registration API is ever invoked on a
`register` call with the given environment and fetch outcome. -/
def swRegisterCalled (env : RegisterEnv) (fr : FetchResult) : Bool :=
  (registerTrace env fr).any isNavRegister

/-- The caller-supplied `config` object of `register`: which of the two
optional callbacks are present. `none` models calling `register()` with no
config at all. -/
structure SWConfig where
  onUpdate : Bool
  onSuccess : Bool
deriving DecidableEq, Repr

/-- Console message of the update branch of `registerValidSW`. -/
def updateMsg : String :=
  "New content is available and will be used when all tabs for this page are closed. See https://bit.ly/CRA-PWA."

/-- Console message of the first-install branch of `registerValidSW`. -/
def cachedMsg : String :=
  "Content is cached for offline use."

/-- The `installingWorker.onstatechange` handler installed by
`registerValidSW`, as the trace of its observable actions: when the worker
state is `installed`, an existing `navigator.serviceWorker.controller` selects
the update branch (log, then `config.onUpdate(registration)` when provided)
and its absence selects the first-install branch (log, then
`config.onSuccess(registration)` when provided). -/
def onStateChange (workerState : String) (hasController : Bool) (config : Option SWConfig) :
    List SWAction :=
  if workerState = "installed" then
    if hasController then
      SWAction.consoleLog updateMsg ::
        (match config with
         | some c => if c.onUpdate then [SWAction.callOnUpdate] else []
         | none => [])
    else
      SWAction.consoleLog cachedMsg ::
        (match config with
         | some c => if c.onSuccess then [SWAction.callOnSuccess] else []
         | none => [])
  else []

end ServiceWorker

namespace Transition

theorem mem_addClass (cl : List String) (c x : String) :
    x ∈ addClass cl c ↔ x ∈ cl ∨ x = c := by
  unfold addClass
  split
  · constructor
    · exact fun h => Or.inl h
    · rintro (h | rfl)
      · exact h
      · assumption
  · simp [List.mem_append]

theorem mem_addClasses (cl cs : List String) (x : String) :
    x ∈ addClasses cl cs ↔ x ∈ cl ∨ x ∈ cs := by
  induction cs generalizing cl with
  | nil => simp [addClasses]
  | cons c cs ih =>
      have h1 : addClasses cl (c :: cs) = addClasses (addClass cl c) cs := rfl
      rw [h1, ih (addClass cl c), mem_addClass]
      simp [List.mem_cons]
      tauto

theorem mem_removeClasses (cl cs : List String) (x : String) :
    x ∈ removeClasses cl cs ↔ x ∈ cl ∧ x ∉ cs := by
  simp [removeClasses]

theorem not_space_mem_of_mem_splitOnSpace (l : List Char) (t : List Char)
    (ht : t ∈ splitOnSpace l) : ' ' ∉ t := by
  induction l generalizing t with
  | nil =>
      simp [splitOnSpace] at ht
      subst ht
      simp
  | cons c rest ih =>
      unfold splitOnSpace at ht
      by_cases hc : c = ' '
      · rw [if_pos hc] at ht
        rcases List.mem_cons.mp ht with h | h
        · subst h
          simp
        · exact ih t h
      · rw [if_neg hc] at ht
        rcases hsp : splitOnSpace rest with _ | ⟨t0, ts⟩
        · rw [hsp] at ht
          simp at ht
          subst ht
          intro hmem
          rcases List.mem_cons.mp hmem with h1 | h1
          · exact hc h1.symm
          · simp at h1
        · rw [hsp] at ht
          rcases List.mem_cons.mp ht with h | h
          · subst h
            intro hmem
            rcases List.mem_cons.mp hmem with h1 | h1
            · exact hc h1.symm
            · exact ih t0 (by rw [hsp]; exact List.mem_cons_self _ _) h1
          · exact ih t (by rw [hsp]; exact List.mem_cons.mpr (Or.inr h))

theorem splitClasses_tokens (s : String) (t : String) (ht : t ∈ splitClasses s) :
    t.length ≠ 0 ∧ ' ' ∉ t.data := by
  unfold splitClasses at ht
  rw [List.mem_filter] at ht
  obtain ⟨hmem, hlen⟩ := ht
  rw [List.mem_map] at hmem
  obtain ⟨l, hl, rfl⟩ := hmem
  refine ⟨by simpa using hlen, ?_⟩
  exact not_space_mem_of_mem_splitOnSpace s.data l hl

/-- C2, counterexample to the claim as stated: the claim reads every
class-name prop string as split into whitespace-delimited tokens, but the
code splits on the space character only, so a tab inside the string is not a
delimiter: on the prop string with a tab between two class names the code
keeps one token containing the tab where a whitespace split yields two. -/
theorem c2_whitespace_split_counterexample :
    ¬ (splitClasses ("a\tb") = splitClassesSpec ("a\tb")) := by
  decide

/-- C2 (amended): every class-name prop string is split into tokens on the
space character (not on all whitespace) and empty tokens are discarded before
the tokens are applied to or removed from the class list, so every token any
phase callback uses is nonempty and contains no space. -/
theorem c2_space_split_tokens (p : CSSTransitionClassProps) (t : String)
    (h : t ∈ enterClasses p ∨ t ∈ enterStartClasses p ∨ t ∈ enterEndClasses p ∨
         t ∈ leaveClasses p ∨ t ∈ leaveStartClasses p ∨ t ∈ leaveEndClasses p) :
    t.length ≠ 0 ∧ ' ' ∉ t.data := by
  rcases h with h | h | h | h | h | h
  · exact splitClasses_tokens p.enter t h
  · exact splitClasses_tokens p.enterStart t h
  · exact splitClasses_tokens p.enterEnd t h
  · exact splitClasses_tokens p.leave t h
  · exact splitClasses_tokens p.leaveStart t h
  · exact splitClasses_tokens p.leaveEnd t h

/-- Concrete class-name props used to witness the C2 theorem. -/
def c2Props : CSSTransitionClassProps :=
  ⟨"transition  ease-out", "opacity-0", "opacity-100", "transition ease-in", "opacity-100", "opacity-0"⟩

/-- C2 witness: the amended theorem applied to a concrete prop set whose
`enter` string has a doubled space. -/
theorem c2_space_split_tokens_witness :
    ("ease-out" : String).length ≠ 0 ∧ ' ' ∉ ("ease-out" : String).data :=
  c2_space_split_tokens c2Props ("ease-out") (Or.inl (by decide))

/-- C3: for the enter direction, the `onEnter` callback first adds the
`enter` and `enterStart` tokens (clearing the inline display when
`unmountOnExit` is unset); the `onEntering` callback then removes the
`enterStart` tokens and adds the `enterEnd` tokens; the `onEntered` callback
(fired once the transition-end event reports completion) removes the
`enterEnd` and `enter` tokens. The leave direction is symmetric through
`onExit`, `onExiting` and `onExited`, the latter restoring the display when
`unmountOnExit` is unset. Stated for class-name props whose adjacent phase
token groups do not overlap. -/
theorem c3_phase_class_order (p : CSSTransitionClassProps) (removeFromDom : Bool)
    (n0 : NodeState)
    (hES_EE : ∀ c ∈ enterStartClasses p, c ∉ enterEndClasses p)
    (hE_ES : ∀ c ∈ enterClasses p, c ∉ enterStartClasses p)
    (hLS_LE : ∀ c ∈ leaveStartClasses p, c ∉ leaveEndClasses p)
    (hL_LS : ∀ c ∈ leaveClasses p, c ∉ leaveStartClasses p) :
    (∀ c ∈ enterClasses p, c ∈ (onEnter p removeFromDom n0).classList) ∧
    (∀ c ∈ enterStartClasses p, c ∈ (onEnter p removeFromDom n0).classList) ∧
    (removeFromDom = false → (onEnter p removeFromDom n0).display = none) ∧
    (∀ c ∈ enterStartClasses p, c ∉ (onEntering p (onEnter p removeFromDom n0)).classList) ∧
    (∀ c ∈ enterEndClasses p, c ∈ (onEntering p (onEnter p removeFromDom n0)).classList) ∧
    (∀ c ∈ enterClasses p, c ∈ (onEntering p (onEnter p removeFromDom n0)).classList) ∧
    (∀ c ∈ enterEndClasses p,
      c ∉ (onEntered p (onEntering p (onEnter p removeFromDom n0))).classList) ∧
    (∀ c ∈ enterClasses p,
      c ∉ (onEntered p (onEntering p (onEnter p removeFromDom n0))).classList) ∧
    (∀ c ∈ leaveClasses p, c ∈ (onExit p n0).classList) ∧
    (∀ c ∈ leaveStartClasses p, c ∈ (onExit p n0).classList) ∧
    (∀ c ∈ leaveStartClasses p, c ∉ (onExiting p (onExit p n0)).classList) ∧
    (∀ c ∈ leaveEndClasses p, c ∈ (onExiting p (onExit p n0)).classList) ∧
    (∀ c ∈ leaveClasses p, c ∈ (onExiting p (onExit p n0)).classList) ∧
    (∀ c ∈ leaveEndClasses p,
      c ∉ (onExited p removeFromDom (onExiting p (onExit p n0))).classList) ∧
    (∀ c ∈ leaveClasses p,
      c ∉ (onExited p removeFromDom (onExiting p (onExit p n0))).classList) ∧
    (removeFromDom = false →
      (onExited p removeFromDom (onExiting p (onExit p n0))).display = some ("none")) := by
  have hEnterCl : ∀ n : NodeState, (onEnter p removeFromDom n).classList
      = addClasses n.classList (enterClasses p ++ enterStartClasses p) := by
    intro n
    unfold onEnter
    cases removeFromDom <;> rfl
  have hExitedCl : ∀ n : NodeState, (onExited p removeFromDom n).classList
      = removeClasses n.classList (leaveEndClasses p ++ leaveClasses p) := by
    intro n
    unfold onExited
    cases removeFromDom <;> rfl
  refine ⟨?_, ?_, ?_, ?_, ?_, ?_, ?_, ?_, ?_, ?_, ?_, ?_, ?_, ?_, ?_, ?_⟩
  · intro c hc
    rw [hEnterCl, mem_addClasses]
    exact Or.inr (List.mem_append.mpr (Or.inl hc))
  · intro c hc
    rw [hEnterCl, mem_addClasses]
    exact Or.inr (List.mem_append.mpr (Or.inr hc))
  · intro h
    subst h
    rfl
  · intro c hc
    show c ∉ addClasses (removeClasses (onEnter p removeFromDom n0).classList (enterStartClasses p)) (enterEndClasses p)
    rw [mem_addClasses, mem_removeClasses]
    rintro (⟨_, hno⟩ | hEE)
    · exact hno hc
    · exact hES_EE c hc hEE
  · intro c hc
    show c ∈ addClasses (removeClasses (onEnter p removeFromDom n0).classList (enterStartClasses p)) (enterEndClasses p)
    rw [mem_addClasses]
    exact Or.inr hc
  · intro c hc
    show c ∈ addClasses (removeClasses (onEnter p removeFromDom n0).classList (enterStartClasses p)) (enterEndClasses p)
    rw [mem_addClasses, mem_removeClasses]
    refine Or.inl ⟨?_, hE_ES c hc⟩
    rw [hEnterCl, mem_addClasses]
    exact Or.inr (List.mem_append.mpr (Or.inl hc))
  · intro c hc
    show c ∉ removeClasses (onEntering p (onEnter p removeFromDom n0)).classList (enterEndClasses p ++ enterClasses p)
    rw [mem_removeClasses]
    rintro ⟨_, hno⟩
    exact hno (List.mem_append.mpr (Or.inl hc))
  · intro c hc
    show c ∉ removeClasses (onEntering p (onEnter p removeFromDom n0)).classList (enterEndClasses p ++ enterClasses p)
    rw [mem_removeClasses]
    rintro ⟨_, hno⟩
    exact hno (List.mem_append.mpr (Or.inr hc))
  · intro c hc
    show c ∈ addClasses n0.classList (leaveClasses p ++ leaveStartClasses p)
    rw [mem_addClasses]
    exact Or.inr (List.mem_append.mpr (Or.inl hc))
  · intro c hc
    show c ∈ addClasses n0.classList (leaveClasses p ++ leaveStartClasses p)
    rw [mem_addClasses]
    exact Or.inr (List.mem_append.mpr (Or.inr hc))
  · intro c hc
    show c ∉ addClasses (removeClasses (onExit p n0).classList (leaveStartClasses p)) (leaveEndClasses p)
    rw [mem_addClasses, mem_removeClasses]
    rintro (⟨_, hno⟩ | hLE)
    · exact hno hc
    · exact hLS_LE c hc hLE
  · intro c hc
    show c ∈ addClasses (removeClasses (onExit p n0).classList (leaveStartClasses p)) (leaveEndClasses p)
    rw [mem_addClasses]
    exact Or.inr hc
  · intro c hc
    show c ∈ addClasses (removeClasses (onExit p n0).classList (leaveStartClasses p)) (leaveEndClasses p)
    rw [mem_addClasses, mem_removeClasses]
    refine Or.inl ⟨?_, hL_LS c hc⟩
    show c ∈ addClasses n0.classList (leaveClasses p ++ leaveStartClasses p)
    rw [mem_addClasses]
    exact Or.inr (List.mem_append.mpr (Or.inl hc))
  · intro c hc
    rw [hExitedCl, mem_removeClasses]
    rintro ⟨_, hno⟩
    exact hno (List.mem_append.mpr (Or.inl hc))
  · intro c hc
    rw [hExitedCl, mem_removeClasses]
    rintro ⟨_, hno⟩
    exact hno (List.mem_append.mpr (Or.inr hc))
  · intro h
    subst h
    rfl

/-- Concrete class-name props used to witness the C3 theorem. -/
def c3Props : CSSTransitionClassProps :=
  ⟨"transition ease-out", "opacity-0", "opacity-100", "transition ease-in", "opacity-100", "opacity-0"⟩

/-- Concrete starting node used to witness the C3 theorem. -/
def c3Node : NodeState :=
  ⟨[], some ("none")⟩

/-- C3 witness: the theorem applied at concrete props with non-overlapping
phase groups, a kept-in-DOM node, and an empty starting class list. -/
theorem c3_phase_class_order_witness :
    (∀ c ∈ enterStartClasses c3Props, c ∉ enterEndClasses c3Props) ∧
    (∀ c ∈ enterClasses c3Props, c ∉ enterStartClasses c3Props) ∧
    (∀ c ∈ leaveStartClasses c3Props, c ∉ leaveEndClasses c3Props) ∧
    (∀ c ∈ leaveClasses c3Props, c ∉ leaveStartClasses c3Props) ∧
    (("opacity-0" : String) ∉ (onEntering c3Props (onEnter c3Props false c3Node)).classList) ∧
    (onExited c3Props false (onExiting c3Props (onExit c3Props c3Node))).display = some ("none") := by
  have h := c3_phase_class_order c3Props false c3Node (by decide) (by decide) (by decide) (by decide)
  obtain ⟨h1, h2, h3, h4, h5, h6, h7, h8, h9, h10, h11, h12, h13, h14, h15, h16⟩ := h
  exact ⟨by decide, by decide, by decide, by decide, h4 ("opacity-0") (by decide), h16 rfl⟩

/-- C4: a child instance (its `show` prop `undefined`) under a parent that
published `show=false` renders in the hidden phase, regardless of the value
of the child's own `appear` prop, once the parent has rendered at least once
(`parent.isInitialRender = false`). -/
theorem c4_child_hidden (parent : ParentState) (childAppear : Bool)
    (hshow : parent.showProp = false) (hrendered : parent.isInitialRender = false) :
    initialPhase (transitionRender none childAppear parent) = Phase.hidden := by
  simp [transitionRender, childRender, initialPhase, hshow]

/-- C4 witness: a parent with `show=false` past its first render and a child
whose own `appear` prop is `true`. -/
theorem c4_child_hidden_witness :
    (ParentState.mk false false true).showProp = false ∧
    initialPhase (transitionRender none true (ParentState.mk false false true)) = Phase.hidden :=
  ⟨rfl, c4_child_hidden (ParentState.mk false false true) true rfl rfl⟩

/-- C9: the `appear` value a child instance passes to its inner
`CSSTransition` is `parent.appear || !parent.isInitialRender`; after the
parent has completed its first render (render index positive, so
`useIsInitialRender` reads false) the child animates its enter transition
(`appear = true`) even when the parent `appear` prop is false, and the
parent `appear` value alone is inherited only on the parent initial render. -/
theorem c9_child_effective_appear (pShow pAppear childAppear : Bool) (k : Nat) :
    (transitionRender none childAppear (ParentState.mk pShow (useIsInitialRender k) pAppear)).appear
      = (pAppear || !(useIsInitialRender k)) ∧
    (0 < k →
      (transitionRender none childAppear (ParentState.mk pShow (useIsInitialRender k) pAppear)).appear
        = true) ∧
    (k = 0 →
      (transitionRender none childAppear (ParentState.mk pShow (useIsInitialRender k) pAppear)).appear
        = pAppear) := by
  refine ⟨rfl, ?_, ?_⟩
  · intro hk
    cases k with
    | zero => exact absurd hk (lt_irrefl 0)
    | succ n => simp [transitionRender, childRender, useIsInitialRender]
  · intro hk
    subst hk
    simp [transitionRender, childRender, useIsInitialRender]

/-- C9 witness: on the parent second render (`k = 1`) a child under a parent
with `appear = false` still gets `appear = true`. -/
theorem c9_child_effective_appear_witness :
    (transitionRender none false (ParentState.mk true (useIsInitialRender 1) false)).appear = true :=
  (c9_child_effective_appear true false false 1).2.1 (by decide)

/-- C10: with `unmountOnExit` falsy the inline display starts as the
none-string, is cleared by the `onEnter` callback and set back by the
`onExited` callback, while `onEntering`, `onEntered`, `onExit` and
`onExiting` never touch it; with `unmountOnExit` truthy no callback sets or
modifies the inline display and `onEnter`/`onExited` perform exactly their
class-list mutation. -/
theorem c10_display_side_effects (p : CSSTransitionClassProps) (n : NodeState) :
    initialDisplay false = some ("none") ∧
    (onEnter p false n).display = none ∧
    (onExited p false n).display = some ("none") ∧
    (onEntering p n).display = n.display ∧
    (onEntered p n).display = n.display ∧
    (onExit p n).display = n.display ∧
    (onExiting p n).display = n.display ∧
    initialDisplay true = none ∧
    (onEnter p true n).display = n.display ∧
    (onExited p true n).display = n.display ∧
    (onEnter p true n).classList = addClasses n.classList (enterClasses p ++ enterStartClasses p) ∧
    (onExited p true n).classList = removeClasses n.classList (leaveEndClasses p ++ leaveClasses p) :=
  ⟨rfl, rfl, rfl, rfl, rfl, rfl, rfl, rfl, rfl, rfl, rfl, rfl⟩

end Transition

namespace ServiceWorker

/-- C1: when the installing worker reaches the installed state, an existing
active controller selects the update branch — `config.onUpdate(registration)`
is invoked when provided and `config.onSuccess` never is — and the absence of
a controller selects the first-install branch — `config.onSuccess` is invoked
when provided and `config.onUpdate` never is; the two callbacks are mutually
exclusive for any single outcome. -/
theorem c1_installed_dispatch (hasController : Bool) (config : Option SWConfig) :
    (hasController = true →
      SWAction.callOnSuccess ∉ onStateChange ("installed") hasController config ∧
      (∀ c : SWConfig, config = some c → c.onUpdate = true →
        SWAction.callOnUpdate ∈ onStateChange ("installed") hasController config)) ∧
    (hasController = false →
      SWAction.callOnUpdate ∉ onStateChange ("installed") hasController config ∧
      (∀ c : SWConfig, config = some c → c.onSuccess = true →
        SWAction.callOnSuccess ∈ onStateChange ("installed") hasController config)) ∧
    ¬ (SWAction.callOnUpdate ∈ onStateChange ("installed") hasController config ∧
       SWAction.callOnSuccess ∈ onStateChange ("installed") hasController config) := by
  rcases config with _ | ⟨u, s⟩
  · cases hasController <;> simp [onStateChange]
  · cases hasController <;> cases u <;> cases s <;> simp [onStateChange]

/-- C1 witness: with a previously active controller and both callbacks
provided, `onUpdate` is invoked and `onSuccess` is not. -/
theorem c1_installed_dispatch_witness :
    SWAction.callOnUpdate ∈ onStateChange ("installed") true (some ⟨true, true⟩) ∧
    SWAction.callOnSuccess ∉ onStateChange ("installed") true (some ⟨true, true⟩) := by
  have h := c1_installed_dispatch true (some ⟨true, true⟩)
  exact ⟨(h.1 rfl).2 ⟨true, true⟩ rfl rfl, (h.1 rfl).1⟩

/-- C5: `register(config)` does nothing — no load listener, no fetch, no call
of the browser registration API — unless the build is production and the
browser supports service workers; and even then, when the public asset origin
differs from the page origin it returns before installing the load listener,
so nothing is ever registered. -/
theorem c5_register_guards (env : RegisterEnv) (fr : FetchResult) :
    (¬ (env.nodeEnv = "production" ∧ env.hasServiceWorker = true) →
      register env = RegisterOutcome.skipped ∧
      registerTrace env fr = [] ∧
      swRegisterCalled env fr = false) ∧
    (env.nodeEnv = "production" → env.hasServiceWorker = true →
      env.publicUrlOrigin ≠ env.pageOrigin →
      register env = RegisterOutcome.abortCrossOrigin ∧
      registerTrace env fr = [] ∧
      swRegisterCalled env fr = false) := by
  constructor
  · intro h
    have hreg : register env = RegisterOutcome.skipped := by
      unfold register
      rw [if_neg h]
    refine ⟨hreg, ?_, ?_⟩
    · unfold registerTrace
      rw [hreg]
    · unfold swRegisterCalled registerTrace
      rw [hreg]
      rfl
  · intro h1 h2 h3
    have hreg : register env = RegisterOutcome.abortCrossOrigin := by
      unfold register
      rw [if_pos ⟨h1, h2⟩, if_pos h3]
    refine ⟨hreg, ?_, ?_⟩
    · unfold registerTrace
      rw [hreg]
    · unfold swRegisterCalled registerTrace
      rw [hreg]
      rfl

/-- Development-build environment used to witness the C5 theorem. -/
def c5EnvDev : RegisterEnv :=
  ⟨"development", true, "http://localhost:3000", "http://localhost:3000", "localhost", ""⟩

/-- Production environment with a CDN public origin used to witness the C5
theorem. -/
def c5EnvCdn : RegisterEnv :=
  ⟨"production", true, "https://cdn.example.com", "https://app.example.com", "app.example.com", "https://cdn.example.com"⟩

/-- C5 witness: a development build is skipped outright, and a production
build whose public URL sits on a CDN origin aborts without registering. -/
theorem c5_register_guards_witness :
    (register c5EnvDev = RegisterOutcome.skipped ∧
      swRegisterCalled c5EnvDev (Except.error ()) = false) ∧
    (register c5EnvCdn = RegisterOutcome.abortCrossOrigin ∧
      swRegisterCalled c5EnvCdn (Except.error ()) = false) := by
  have hdev := (c5_register_guards c5EnvDev (Except.error ())).1 (by decide)
  have hcdn := (c5_register_guards c5EnvCdn (Except.error ())).2 rfl rfl (by decide)
  exact ⟨⟨hdev.1, hdev.2.2⟩, ⟨hcdn.1, hcdn.2.2⟩⟩

/-- C6: on a loopback host in a production build, `register` dispatches to
the verification path, and a fetch of the worker script answering status 404
yields exactly the trace fetch, unregister, reload — the registration call of
`registerValidSW` never happens for that outcome. -/
theorem c6_localhost_404_reload (env : RegisterEnv) (resp : FetchResponse)
    (hprod : env.nodeEnv = "production") (hsw : env.hasServiceWorker = true)
    (horigin : env.publicUrlOrigin = env.pageOrigin)
    (hlocal : isLocalhost env.hostname = true)
    (h404 : resp.status = 404) :
    register env = RegisterOutcome.loadLocalhostCheck (swUrlOf env) ∧
    checkValidServiceWorker (swUrlOf env) (Except.ok resp) =
      [SWAction.fetchCheck (swUrlOf env), SWAction.unregisterCall, SWAction.reloadPage] ∧
    swRegisterCalled env (Except.ok resp) = false := by
  have hreg : register env = RegisterOutcome.loadLocalhostCheck (swUrlOf env) := by
    unfold register
    rw [if_pos ⟨hprod, hsw⟩, if_neg (fun h => h horigin)]
    simp [hlocal]
  have hcheck : checkValidServiceWorker (swUrlOf env) (Except.ok resp) =
      [SWAction.fetchCheck (swUrlOf env), SWAction.unregisterCall, SWAction.reloadPage] := by
    unfold checkValidServiceWorker
    simp [h404]
  refine ⟨hreg, hcheck, ?_⟩
  unfold swRegisterCalled registerTrace
  rw [hreg]
  show (checkValidServiceWorker (swUrlOf env) (Except.ok resp)).any isNavRegister = false
  rw [hcheck]
  rfl

/-- Loopback production environment used to witness the C6 theorem. -/
def c6Env : RegisterEnv :=
  ⟨"production", true, "http://localhost:3000", "http://localhost:3000", "localhost", ""⟩

/-- C6 witness: the theorem applied on the localhost environment and a 404
response carrying an HTML content type. -/
theorem c6_localhost_404_reload_witness :
    register c6Env = RegisterOutcome.loadLocalhostCheck (swUrlOf c6Env) ∧
    checkValidServiceWorker (swUrlOf c6Env) (Except.ok ⟨404, some ("text/html")⟩) =
      [SWAction.fetchCheck (swUrlOf c6Env), SWAction.unregisterCall, SWAction.reloadPage] ∧
    swRegisterCalled c6Env (Except.ok ⟨404, some ("text/html")⟩) = false :=
  c6_localhost_404_reload c6Env ⟨404, some ("text/html")⟩ rfl rfl rfl (by decide) rfl

/-- Spec reading of the content-type condition: the response carries a
content-type that includes the javascript marker; an absent header includes
nothing. -/
def contentTypeHasJavascript : Option String → Bool
  | some ct => containsSubstr ct ("javascript")
  | none => false

/-- C7, counterexample to the claim as stated: the claim allows registration
to proceed only when the content-type includes a javascript marker, but on a
response with status 200 and no content-type header at all the code proceeds
to registration even though no marker is present. -/
theorem c7_missing_content_type_counterexample :
    ¬ ((checkValidServiceWorker ("/service-worker.js") (Except.ok ⟨200, none⟩)).any isNavRegister
        = (decide ((200 : Nat) ≠ 404) && contentTypeHasJavascript none)) := by
  decide

/-- C7 (amended): on the loopback verification path, registration proceeds
exactly when the response status is not 404 and the content-type header is
either absent or includes the javascript marker; a 404, or a present
content-type without the marker, never reaches registration. -/
theorem c7_proceed_condition (swUrl : String) (resp : FetchResponse) :
    (checkValidServiceWorker swUrl (Except.ok resp)).any isNavRegister
      = (decide (¬ resp.status = 404) &&
          (resp.contentType.isNone || contentTypeHasJavascript resp.contentType)) := by
  rcases resp with ⟨st, ct⟩
  rcases ct with _ | ct
  · by_cases h : st = 404 <;>
      simp [checkValidServiceWorker, contentTypeHasJavascript, isNavRegister, h]
  · by_cases h : st = 404
    · simp [checkValidServiceWorker, contentTypeHasJavascript, isNavRegister, h]
    · by_cases hjs : containsSubstr ct ("javascript") = true <;>
        simp [checkValidServiceWorker, contentTypeHasJavascript, isNavRegister, h, hjs]

/-- C8: a rejected verification fetch (network failure) produces exactly one
fetch attempt followed by the offline console message: registration is
skipped, nothing reloads or unregisters, the check is not retried, and the
handler terminates normally (the model is a total function — the rejection is
absorbed by the catch branch and nothing propagates). -/
theorem c8_offline_fetch_failure (swUrl : String) :
    checkValidServiceWorker swUrl (Except.error ()) =
      [SWAction.fetchCheck swUrl, SWAction.consoleLog offlineMsg] ∧
    (checkValidServiceWorker swUrl (Except.error ())).any isNavRegister = false ∧
    SWAction.reloadPage ∉ checkValidServiceWorker swUrl (Except.error ()) ∧
    SWAction.unregisterCall ∉ checkValidServiceWorker swUrl (Except.error ()) ∧
    (checkValidServiceWorker swUrl (Except.error ())).countP isFetchCheck = 1 := by
  refine ⟨rfl, rfl, ?_, ?_, ?_⟩
  · simp [checkValidServiceWorker]
  · simp [checkValidServiceWorker]
  · simp [checkValidServiceWorker, isFetchCheck, List.countP_cons]

end ServiceWorker
